import Mathlib

/-!
Verification development for `syncer.py` (ketukil/syncer), a file
synchronizer that mirrors a remote directory listing to a local
filesystem with resumable, retried, cancellable downloads and
regex-based name filtering.

The definitions below are a shallow embedding of the Python source:

* `FileInfoL` embeds the `FileInfo` dataclass.
* The regex engine (`AtomCls`, `compileChars`, `matchHere`, `searchAtoms`)
  embeds the fragment of Python's `re` used by the program's filter
  patterns: literal characters, `.`, and postfix `*`, with `re.search`
  (substring) semantics and the `re.IGNORECASE` flag.  Other regex
  metacharacters are rejected by `compileChars` (returning `none`), which
  also embeds `re.error` for ill-formed patterns such as a leading `*`.
* `LocalFS`, `localNames`, `identifyIncompleteDownloads`,
  `determineFilesToDownload`, `applyRegexFilter`, `calculateDownloadSize`,
  `resumeFromByte`, `planEntries` embed the planning methods of
  `FileSynchronizer`.
* `NetEnv`, `DLState`, `streamChunks`, `runAttempt`, `dlLoop`,
  `downloadWithRetries` embed `Downloader._download_with_retries`, with
  the network and the asynchronous termination flag modelled as oracles
  (`net` indexed by the number of requests issued so far, `cancel` indexed
  by the number of times the flag has been polled).
* `SyncEnv`, `downloadFilesLoop`, `sync` embed `FileSynchronizer.sync`
  and `FileSynchronizer._download_files`, with the directory lister, the
  interactive prompts and the per-file downloader modelled as oracles.
-/

/-- Embeds the `FileInfo` dataclass of `syncer.py` (name, url, size,
last_modified).  Sizes are natural numbers of bytes. -/
structure FileInfoL where
  name : String
  url : String
  size : Nat
  lastModified : String
  deriving DecidableEq, Repr

/-! ## Regex engine (fragment of Python `re` used by the filter) -/

/-- One regex atom: a literal character or the metacharacter `.`
(which in Python matches any character except a newline). -/
inductive AtomCls where
  | lit (c : Char)
  | dot
  deriving DecidableEq, Repr

/-- Characters that `compileChars` refuses at an atom position.  A
pattern containing one of these either is ill-formed in Python (a
leading or doubled `*`, `+`, `?`) or uses a construct outside the
embedded fragment; both are mapped to compilation failure. -/
def isSpecialChar (c : Char) : Bool :=
  c == '*' || c == '+' || c == '?' || c == '(' || c == ')' ||
  c == '[' || c == ']' || c == '\x7b' || c == '\x7d' ||
  c == '|' || c == '^' || c == '$' || c == '\\'

/-- Compiles a pattern, given as a list of characters, into a list of
atoms each carrying a `Bool` that records a postfix `*`.  Returns
`none` on an ill-formed or unsupported pattern (embeds `re.error`). -/
def compileChars : List Char → Option (List (AtomCls × Bool))
  | [] => some []
  | c :: '*' :: rest =>
    if isSpecialChar c then none
    else
      (compileChars rest).map fun r =>
        ((if c == '.' then AtomCls.dot else AtomCls.lit c), true) :: r
  | c :: rest =>
    if isSpecialChar c then none
    else
      (compileChars rest).map fun r =>
        ((if c == '.' then AtomCls.dot else AtomCls.lit c), false) :: r

/-- Embeds `re.compile(pattern, flags)` for the supported fragment; the
case-sensitivity flag is passed separately to the matcher. -/
def compilePattern (pattern : String) : Option (List (AtomCls × Bool)) :=
  compileChars pattern.toList

/-- Whether one atom matches one character, honouring the
case-sensitivity flag (`re.IGNORECASE` compares lowercased
characters); `.` matches anything except a newline. -/
def atomMatches (caseSensitive : Bool) (a : AtomCls) (c : Char) : Bool :=
  match a with
  | AtomCls.dot => c != '\n'
  | AtomCls.lit l => if caseSensitive then c == l else c.toLower == l.toLower

/-- Fuelled matcher: whether the atom list matches a prefix of the
character list.  Every recursive call shortens the atom list or the
character list, so `atoms.length + s.length + 1` units of fuel always
suffice and the out-of-fuel arm is unreachable from `matchHere`; the
fuel only makes the recursion structural. -/
def matchHereF (caseSensitive : Bool) :
    Nat → List (AtomCls × Bool) → List Char → Bool
  | 0, _, _ => false
  | _ + 1, [], _ => true
  | _ + 1, (_, false) :: _, [] =>
    -- an unstarred atom needs a character
    false
  | fuel + 1, (a, false) :: rest, c :: s =>
    atomMatches caseSensitive a c && matchHereF caseSensitive fuel rest s
  | fuel + 1, (a, true) :: rest, s =>
    matchHereF caseSensitive fuel rest s ||
      match s with
      | [] => false
      | c :: s2 =>
        atomMatches caseSensitive a c &&
          matchHereF caseSensitive fuel ((a, true) :: rest) s2

/-- Whether the atom list matches a prefix of the character list
(anchored at the start of the suffix under consideration). -/
def matchHere (caseSensitive : Bool) (atoms : List (AtomCls × Bool))
    (s : List Char) : Bool :=
  matchHereF caseSensitive (atoms.length + s.length + 1) atoms s

/-- Embeds `re.search`: the pattern may match starting at any position
of the string, including the position at its end. -/
def searchAtoms (caseSensitive : Bool) (r : List (AtomCls × Bool)) :
    List Char → Bool
  | [] => matchHere caseSensitive r []
  | c :: s => matchHere caseSensitive r (c :: s) || searchAtoms caseSensitive r s

/-- Embeds `regex.search(name)` on a filename. -/
def regexSearch (caseSensitive : Bool) (r : List (AtomCls × Bool))
    (name : String) : Bool :=
  searchAtoms caseSensitive r name.toList

/-! ## Local filesystem model and the planning methods -/

/-- The two local directories consulted by the synchronizer
(`local_dir` alias "current files", and `download_dir`), each a list of
(filename, on-disk byte length) pairs. -/
structure LocalFS where
  localDirFiles : List (String × Nat)
  downloadDirFiles : List (String × Nat)
  deriving DecidableEq, Repr

/-- Size of the named file in a directory listing, or `none` when the
file does not exist (embeds `os.path.exists` + `os.path.getsize`). -/
def lookupSize : List (String × Nat) → String → Option Nat
  | [], _ => none
  | (n, sz) :: rest, name => if n == name then some sz else lookupSize rest name

/-- Embeds the extension test used throughout `syncer.py`:
an empty extension accepts everything, otherwise the lowercased name
must end with the lowercased extension. -/
def extMatches (ext : String) (name : String) : Bool :=
  ext == "" || name.toLower.endsWith ext.toLower

/-- Embeds `FileSynchronizer._get_local_files`: names from both
directories that pass the extension test.  The Python `set` is
modelled as a list; only membership is ever consulted. -/
def localNames (fs : LocalFS) (ext : String) : List String :=
  (fs.localDirFiles.map Prod.fst).filter (extMatches ext) ++
    (fs.downloadDirFiles.map Prod.fst).filter (extMatches ext)

/-- One record of `partial_downloads`: the on-disk size in the download
directory and the remote size.  (The `percent_complete` float of the
source is display-only and is not modelled.) -/
structure PartInfo where
  localSize : Nat
  serverSize : Nat
  deriving DecidableEq, Repr

/-- Embeds `FileSynchronizer._identify_partial_downloads`: for each
server file, in order, record it when a file of the same name exists in
the *download* directory with a strictly smaller size.  The Python dict
is modelled as an association list keyed by name. -/
def identifyIncompleteDownloads (serverFiles : List FileInfoL)
    (fs : LocalFS) : List (String × PartInfo) :=
  match serverFiles with
  | [] => []
  | f :: rest =>
    match lookupSize fs.downloadDirFiles f.name with
    | some sz =>
      if sz < f.size then
        (f.name, ⟨sz, f.size⟩) :: identifyIncompleteDownloads rest fs
      else identifyIncompleteDownloads rest fs
    | none => identifyIncompleteDownloads rest fs

/-- Lookup in the association list modelling the `partial_downloads`
dict. -/
def lookupPart : List (String × PartInfo) → String → Option PartInfo
  | [], _ => none
  | (n, i) :: rest, name => if n == name then some i else lookupPart rest name

/-- Embeds `FileSynchronizer._determine_files_to_download`: keep a
server file when its name is not among the local names or it has a
partial-download record. -/
def determineFilesToDownload (serverFiles : List FileInfoL)
    (locals : List String) (inc : List (String × PartInfo)) :
    List FileInfoL :=
  serverFiles.filter fun f =>
    !(locals.contains f.name) || (lookupPart inc f.name).isSome

/-- Result of `FileSynchronizer._apply_regex_filter`: the kept files,
the names stored into `self.filtered_files` (in input order), and
whether the disabled / invalid-pattern warning branch was taken. -/
structure FilterOutcome where
  kept : List FileInfoL
  filteredFiles : List String
  warned : Bool
  deriving DecidableEq, Repr

/-- Embeds `FileSynchronizer._apply_regex_filter`.  With filtering
disabled, or with a pattern that fails to compile (`re.error` caught),
every candidate is rejected with a warning and the function returns
normally.  Otherwise candidates are split by `regex.search` on their
names, preserving order. -/
def applyRegexFilter (enabled : Bool) (pattern : String)
    (caseSensitive : Bool) (filesToDownload : List FileInfoL) :
    FilterOutcome :=
  if !enabled then
    ⟨[], filesToDownload.map (fun f => f.name), true⟩
  else
    match compilePattern pattern with
    | none => ⟨[], filesToDownload.map (fun f => f.name), true⟩
    | some r =>
      let p := filesToDownload.partition fun f => regexSearch caseSensitive r f.name
      ⟨p.1, p.2.map (fun f => f.name), false⟩

/-- Embeds `FileSynchronizer._calculate_download_size`: a file with a
partial-download record contributes its remaining bytes, any other file
its full size. -/
def calculateDownloadSize (filesToDownload : List FileInfoL)
    (inc : List (String × PartInfo)) : Nat :=
  filesToDownload.foldl
    (fun acc f =>
      match lookupPart inc f.name with
      | some info => acc + (f.size - info.localSize)
      | none => acc + f.size)
    0

/-- Embeds the resume position chosen by `Downloader.download`: the
current size of the file in the download directory, or 0 when absent
(lines 680-681 of the source). -/
def resumeFromByte (fs : LocalFS) (name : String) : Nat :=
  (lookupSize fs.downloadDirFiles name).getD 0

/-- The download plan as the spec presents it: each kept file paired
with its resume offset, in listing order. -/
def planEntries (fs : LocalFS) (files : List FileInfoL) :
    List (String × Nat) :=
  files.map fun f => (f.name, resumeFromByte fs f.name)

/-! ## Downloader embedding (`Downloader._download_with_retries`) -/

/-- Behaviour of one network request issued by the downloader:
either `requests.get` raises (`raiseExc`), or a response arrives with
a status code, the total size parsed from the `Content-Range` header
(present when the regex `/(\d+)/` finds a total; `none` embeds "no
match", which the source turns into total 0), the `Content-Length`
value, the body chunk sizes that `iter_content` will deliver, and a
flag telling whether the stream raises a `RequestException` after
those chunks instead of ending cleanly. -/
inductive AttemptNet where
  | raiseExc
  | resp (status : Nat) (contentRangeTotal : Option Nat)
      (contentLength : Nat) (chunks : List Nat) (midStreamError : Bool)

/-- Oracles for one downloader call: `net i` is the behaviour of the
i-th request issued, `cancel j` is the value of the process-wide
`terminate_requested` flag at its j-th poll. -/
structure NetEnv where
  net : Nat → AttemptNet
  cancel : Nat → Bool

/-- Observable state threaded through the downloader: the on-disk
length of the local file, the log of requests issued so far (each entry
is the `Range` header's start byte, or `none` when no header was
sent), and the number of polls of the termination flag so far. -/
structure DLState where
  fileLen : Nat
  reqLog : List (Option Nat)
  polls : Nat
  deriving DecidableEq, Repr

/-- Advances the poll counter after one read of `terminate_requested`. -/
def pollNext (s : DLState) : DLState := { s with polls := s.polls + 1 }

/-- Result of `_download_with_retries`: the `(success, bytes_downloaded)`
pair of the source, together with the final observable state. -/
structure DLResult where
  success : Bool
  bytesDownloaded : Nat
  state : DLState
  deriving DecidableEq, Repr

/-- Outcome of the streaming loop over `response.iter_content`. -/
inductive StreamOut where
  | cancelled (bytes : Nat) (s : DLState)
  | done (bytes : Nat) (s : DLState)
  deriving Repr

/-- Embeds the chunk loop (source lines 770-792): before each chunk the
termination flag is polled; when set, the file is flushed and closed
and `(False, bytes_downloaded)` is returned, leaving the file at its
current length.  Otherwise the chunk is appended: the file length and
the `bytes_downloaded` counter advance by the chunk size (a chunk of
size 0 embeds a falsy chunk, which the source skips - the effect is
identical). -/
def streamChunks (env : NetEnv) : List Nat → Nat → DLState → StreamOut
  | [], bytes, s => StreamOut.done bytes s
  | c :: rest, bytes, s =>
    if env.cancel s.polls then StreamOut.cancelled bytes (pollNext s)
    else streamChunks env rest (bytes + c)
      { pollNext s with fileLen := s.fileLen + c }

/-- Outcome of one attempt body (the `try` block of the source):
`raised` embeds a `RequestException` escaping to the handler (carrying
the current `bytes_downloaded`), `finished` a `return` statement, and
`rangeRefused` the branch at lines 739-743 (resume requested but the
status is not 206). -/
inductive AttemptOutcome where
  | raised (bytes : Nat) (s : DLState)
  | finished (r : DLResult)
  | rangeRefused (s : DLState)

/-- Embeds the `try` block of `_download_with_retries` (lines 722-805):
issue the request (with a `Range: bytes=start-` header iff
`start_position > 0`), take the range-not-honoured branch if a resume
was requested and the status is not 206 — note this test precedes
`raise_for_status` — then raise on an HTTP error status, derive the
expected total (from `Content-Range` when the status is 206, else
`content-length + start_position`), open the file (truncating it iff
`start_position = 0`, mode "wb" vs "ab"), reset `bytes_downloaded` to 0
(line 767) and stream.  After a clean stream, fail if the on-disk
length is short of a positive expected total (lines 798-803). -/
def runAttempt (env : NetEnv) (startPosition bytes : Nat) (s : DLState) :
    AttemptOutcome :=
  let response := env.net s.reqLog.length
  let s := { s with
    reqLog := s.reqLog ++ [if 0 < startPosition then some startPosition else none] }
  match response with
  | AttemptNet.raiseExc => AttemptOutcome.raised bytes s
  | AttemptNet.resp status crTotal clen chunks midStreamError =>
    if 0 < startPosition && status != 206 then AttemptOutcome.rangeRefused s
    else if 400 ≤ status then AttemptOutcome.raised bytes s
    else
      let totalSize := if status == 206 then crTotal.getD 0 else clen + startPosition
      let s := if 0 < startPosition then s else { s with fileLen := 0 }
      match streamChunks env chunks 0 s with
      | StreamOut.cancelled b s2 => AttemptOutcome.finished ⟨false, b, s2⟩
      | StreamOut.done b s2 =>
        if midStreamError then AttemptOutcome.raised b s2
        else if 0 < totalSize && s2.fileLen < totalSize then
          AttemptOutcome.finished ⟨false, b, s2⟩
        else AttemptOutcome.finished ⟨true, b, s2⟩

/-- Embeds the recursive call `self._download_with_retries(file_info,
local_path, 0)` performed by the range-not-honoured branch: the same
attempt loop with `start_position = 0`.  With no resume requested the
`rangeRefused` outcome is unreachable (the guard `0 < 0` is false), so
that arm is dead code returning the current failure state. -/
def dlLoopFrom0 (env : NetEnv) (maxRetries : Nat) :
    Nat → Nat → DLState → DLResult
  | 0, bytes, s => ⟨false, bytes, s⟩
  | attemptsLeft + 1, bytes, s =>
    if env.cancel s.polls then ⟨false, bytes, pollNext s⟩
    else
      match runAttempt env 0 bytes (pollNext s) with
      | AttemptOutcome.finished r => r
      | AttemptOutcome.rangeRefused s2 => ⟨false, bytes, s2⟩
      | AttemptOutcome.raised bytes2 s2 =>
        if env.cancel s2.polls then ⟨false, bytes2, pollNext s2⟩
        else if attemptsLeft == 0 then ⟨false, bytes2, pollNext s2⟩
        else dlLoopFrom0 env maxRetries attemptsLeft bytes2 (pollNext s2)

/-- Embeds the `for attempt in range(self.max_retries)` loop of
`_download_with_retries` (lines 714-832), with `attempts` the number of
attempts still available and `bytes` the current `bytes_downloaded`.
At the top of each attempt the termination flag is polled and, when
set, `(False, bytes_downloaded)` is returned with no request issued.
A `RequestException` polls the flag again (line 808), then either
retries with the *same* `start_position` (the source never updates it;
the size re-read at lines 814-816 feeds only the log message) or, on
the last attempt, returns `(False, bytes_downloaded)`.  The
range-not-honoured branch restarts the whole call from byte 0 with a
fresh attempt budget and a fresh `bytes_downloaded = 0`. -/
def dlLoop (env : NetEnv) (maxRetries startPosition : Nat) :
    Nat → Nat → DLState → DLResult
  | 0, bytes, s => ⟨false, bytes, s⟩
  | attemptsLeft + 1, bytes, s =>
    if env.cancel s.polls then ⟨false, bytes, pollNext s⟩
    else
      match runAttempt env startPosition bytes (pollNext s) with
      | AttemptOutcome.finished r => r
      | AttemptOutcome.rangeRefused s2 => dlLoopFrom0 env maxRetries maxRetries 0 s2
      | AttemptOutcome.raised bytes2 s2 =>
        if env.cancel s2.polls then ⟨false, bytes2, pollNext s2⟩
        else if attemptsLeft == 0 then ⟨false, bytes2, pollNext s2⟩
        else dlLoop env maxRetries startPosition attemptsLeft bytes2 (pollNext s2)

/-- Embeds a call `_download_with_retries(file_info, local_path,
start_position)`: the attempt loop started with the full retry budget
and `bytes_downloaded = 0` (line 712). -/
def downloadWithRetries (env : NetEnv) (maxRetries startPosition : Nat)
    (s : DLState) : DLResult :=
  dlLoop env maxRetries startPosition maxRetries 0 s

/-- Embeds `Downloader.download`: the start position is the current
on-disk length of the local file (0 when absent), lines 680-690. -/
def downloadCall (env : NetEnv) (maxRetries : Nat) (s : DLState) : DLResult :=
  downloadWithRetries env maxRetries s.fileLen s

/-! ## Orchestrator embedding (`FileSynchronizer.sync`) -/

/-- Oracles and configuration for one `sync()` run.  Collaborators are
modelled as inputs: `serverFiles` is the directory lister's result,
`enableAllAnswer` the reply to the "enable filtering with pattern
all?" prompt shown when filtering is disabled, `confirmAnswer` the
reply to "Continue with download?", `term j` the termination flag at
its j-th poll inside `sync`, and `dlResult i` the
`(success, bytes_downloaded)` pair returned by `Downloader.download`
for the i-th plan entry. -/
structure SyncEnv where
  filterEnabled : Bool
  pattern : String
  caseSensitive : Bool
  enableAllAnswer : Bool
  serverFiles : List FileInfoL
  fs : LocalFS
  ext : String
  confirmAnswer : Bool
  term : Nat → Bool
  dlResult : Nat → Bool × Nat

/-- Per-run accumulators of `FileSynchronizer` (reset at the top of
`sync`, lines 896-899): `downloaded_files`, `failed_files`,
`total_bytes_downloaded`. -/
structure RunStats where
  downloaded : List String
  failed : List String
  totalBytes : Nat
  deriving DecidableEq, Repr

/-- Embeds `FileSynchronizer._download_files` (lines 1197-1261): walk
the plan; at the top of each iteration poll the termination flag and
return `False` when set; otherwise take the downloader's outcome for
this entry, add its bytes to the total, append the name to
`downloaded_files` on success or to `failed_files` on failure — in the
failure case poll the flag once more and break when set.  The call
returns `success_count == len(files_to_download)` together with the
stats and the next poll index.  `n` is the length of the full plan. -/
def downloadFilesLoop (env : SyncEnv) (n : Nat) :
    List FileInfoL → Nat → Nat → Nat → RunStats → Bool × RunStats × Nat
  | [], _, sc, p, st => (sc == n, st, p)
  | f :: rest, i, sc, p, st =>
    if env.term p then (false, st, p + 1)
    else
      let (succ, bytes) := env.dlResult i
      let st := { st with totalBytes := st.totalBytes + bytes }
      if succ then
        downloadFilesLoop env n rest (i + 1) (sc + 1) (p + 1)
          { st with downloaded := st.downloaded ++ [f.name] }
      else
        let st := { st with failed := st.failed ++ [f.name] }
        if env.term (p + 1) then (sc == n, st, p + 2)
        else downloadFilesLoop env n rest (i + 1) sc (p + 2) st

/-- Observable outcome of one `sync()` run: the returned boolean and
the final per-run accumulators (including `filtered_files`). -/
structure SyncOutcome where
  result : Bool
  downloaded : List String
  failed : List String
  filteredFiles : List String
  totalBytes : Nat
  deriving DecidableEq, Repr

/-- Embeds `FileSynchronizer.sync` (lines 881-992).  State is reset;
when filtering is disabled the operator is prompted: declining ends
the run returning `True` with nothing downloaded (lines 905-923),
accepting turns filtering on with pattern `.*`.  Then: listing (term
poll, empty listing fails the run), planning
(`_get_local_files`, `_identify_partial_downloads`,
`_determine_files_to_download`, `_apply_regex_filter`), a term poll, an
empty plan returns `True`, the size summary, a term poll, the download
confirmation (declining returns `False`), the download loop, and
finally `success and not terminate_requested`. -/
def sync (env : SyncEnv) : SyncOutcome :=
  if !env.filterEnabled && !env.enableAllAnswer then
    ⟨true, [], [], [], 0⟩
  else
    let patternEff := if env.filterEnabled then env.pattern else ".*"
    let server := env.serverFiles
    if env.term 0 then ⟨false, [], [], [], 0⟩
    else if server.isEmpty then ⟨false, [], [], [], 0⟩
    else
      let locals := localNames env.fs env.ext
      let inc := identifyIncompleteDownloads server env.fs
      let cand := determineFilesToDownload server locals inc
      let fr := applyRegexFilter true patternEff env.caseSensitive cand
      let files := fr.kept
      if env.term 1 then ⟨false, [], [], fr.filteredFiles, 0⟩
      else if files.isEmpty then ⟨true, [], [], fr.filteredFiles, 0⟩
      else if env.term 2 then ⟨false, [], [], fr.filteredFiles, 0⟩
      else if !env.confirmAnswer then ⟨false, [], [], fr.filteredFiles, 0⟩
      else
        let out := downloadFilesLoop env files.length files 0 0 3 ⟨[], [], 0⟩
        ⟨out.1 && !(env.term out.2.2), out.2.1.downloaded, out.2.1.failed,
          fr.filteredFiles, out.2.1.totalBytes⟩

/-! ## Helper lemmas -/

/-- With the termination flag never set, the chunk loop consumes every
chunk: the file and the byte counter grow by the total chunk size and
one poll happens per chunk. -/
theorem streamChunks_done_of_noCancel (env : NetEnv)
    (hc : ∀ j, env.cancel j = false) :
    ∀ (chunks : List Nat) (bytes : Nat) (s : DLState),
      streamChunks env chunks bytes s =
        StreamOut.done (bytes + chunks.sum)
          ⟨s.fileLen + chunks.sum, s.reqLog, s.polls + chunks.length⟩ := by
  intro chunks
  induction chunks with
  | nil => intro bytes s; simp [streamChunks]
  | cons c rest ih =>
    intro bytes s
    simp [streamChunks, hc, pollNext, ih]
    omega

/-- Specialisation of `streamChunks_done_of_noCancel` to an
environment whose cancel oracle is the literal constant-false
function, in the syntactic form produced by unfolding the concrete
network environments below. -/
theorem streamChunks_done_cancelFalse (net : Nat → AttemptNet) :
    ∀ (chunks : List Nat) (bytes : Nat) (s : DLState),
      streamChunks ⟨net, fun _ => false⟩ chunks bytes s =
        StreamOut.done (bytes + chunks.sum)
          ⟨s.fileLen + chunks.sum, s.reqLog, s.polls + chunks.length⟩ :=
  streamChunks_done_of_noCancel ⟨net, fun _ => false⟩ (fun _ => rfl)

/-! ## Claim C1 -/

/-- Network oracle for the C1 scenario: the first request receives a
206 response whose `Content-Range` total is 1000 and whose stream
delivers one 50-byte chunk and then raises; every later request raises
at once.  The termination flag is never set. -/
def envC1 : NetEnv :=
  ⟨fun n => if n == 0 then AttemptNet.resp 206 (some 1000) 0 [50] true
            else AttemptNet.raiseExc,
   fun _ => false⟩

/-- Claim C1 (code_bug evidence): a fetch called with
`start_position = 100` whose first attempt appends 50 bytes (bringing
the on-disk length to 150) and then hits a transient network failure
retries with `Range: bytes=100-` again — the request log records
`some 100` for all three attempts, not `some 150` for the retries —
because the source re-reads the on-disk size (lines 814-816) only for
its log message and never updates `start_position`.  The final state
confirms the file held 150 bytes from the first attempt onwards. -/
theorem retry_reuses_original_start_position :
    downloadWithRetries envC1 3 100 ⟨100, [], 0⟩ =
      ⟨false, 50, ⟨150, [some 100, some 100, some 100], 7⟩⟩ := by decide

/-! ## Claim C3 -/

/-- Claim C3: with filtering disabled, or with a configured pattern
that fails to compile, `_apply_regex_filter` keeps nothing, moves every
candidate name (in order) to `filtered_files`, and takes the warning
branch — returning normally rather than raising. -/
theorem filter_disabled_or_invalid_rejects_all
    (enabled : Bool) (pattern : String) (caseSensitive : Bool)
    (files : List FileInfoL)
    (h : enabled = false ∨ compilePattern pattern = none) :
    applyRegexFilter enabled pattern caseSensitive files =
      ⟨[], files.map (fun f => f.name), true⟩ := by
  rcases h with h | h
  · simp [applyRegexFilter, h]
  · cases enabled with
    | false => simp [applyRegexFilter]
    | true => simp [applyRegexFilter, h]

/-- Witness for C3 at a concrete input: the pattern `*` is rejected by
the compiler (in Python, `re.error`: nothing to repeat), and the filter
then rejects the single candidate. -/
theorem filter_disabled_or_invalid_rejects_all_witness :
    compilePattern "*" = none ∧
    applyRegexFilter true "*" false [⟨"a.laz", "u", 10, "d"⟩] =
      ⟨[], ["a.laz"], true⟩ :=
  ⟨by decide,
   filter_disabled_or_invalid_rejects_all true "*" false
     [⟨"a.laz", "u", 10, "d"⟩] (Or.inr (by decide))⟩

/-! ## Claim C7 -/

/-- Remote listing of the end-to-end scenario of claim C7. -/
def srvC7 : List FileInfoL :=
  [⟨"a.laz", "u/a.laz", 1000, "d1"⟩, ⟨"b.laz", "u/b.laz", 2000, "d2"⟩]

/-- Local state of the C7 scenario: `downloads/a.laz` holds 400 bytes,
nothing else exists locally. -/
def fsC7 : LocalFS := ⟨[], [("a.laz", 400)]⟩

/-- Claim C7: on the listing `[a.laz (1000), b.laz (2000)]` with a
400-byte `downloads/a.laz`, pattern `.*` case-insensitive, the plan is
`[(a.laz, resume 400), (b.laz, resume 0)]` in listing order and the
estimated remaining size is 600 + 2000 = 2600 bytes. -/
theorem plan_example_end_to_end :
    planEntries fsC7
        (applyRegexFilter true ".*" false
          (determineFilesToDownload srvC7 (localNames fsC7 "")
            (identifyIncompleteDownloads srvC7 fsC7))).kept =
      [("a.laz", 400), ("b.laz", 0)] ∧
    calculateDownloadSize
        (applyRegexFilter true ".*" false
          (determineFilesToDownload srvC7 (localNames fsC7 "")
            (identifyIncompleteDownloads srvC7 fsC7))).kept
        (identifyIncompleteDownloads srvC7 fsC7) = 2600 := by decide

/-! ## Claim C8 -/

/-- Claim C8: when the termination flag is set as an attempt begins,
the attempt loop returns at once with a non-success outcome carrying
the bytes downloaded so far, and the request log is untouched — no
network request is issued for that attempt. -/
theorem cancel_at_attempt_top_returns_immediately
    (env : NetEnv) (maxRetries startPosition attemptsLeft bytes : Nat)
    (s : DLState) (h : env.cancel s.polls = true) :
    dlLoop env maxRetries startPosition (attemptsLeft + 1) bytes s =
      ⟨false, bytes, pollNext s⟩ ∧
    (pollNext s).reqLog = s.reqLog := by
  exact ⟨by simp [dlLoop, h], rfl⟩

/-- Oracle for the C8 witness: the flag is already set; the network
would raise if it were ever consulted. -/
def envC8 : NetEnv := ⟨fun _ => AttemptNet.raiseExc, fun _ => true⟩

/-- Witness for C8 at a concrete input: flag set before the first of
three attempts of a resumed fetch. -/
theorem cancel_at_attempt_top_witness :
    envC8.cancel (⟨500, [], 0⟩ : DLState).polls = true ∧
    (dlLoop envC8 3 500 (2 + 1) 0 ⟨500, [], 0⟩ =
        ⟨false, 0, pollNext ⟨500, [], 0⟩⟩ ∧
      (pollNext (⟨500, [], 0⟩ : DLState)).reqLog =
        (⟨500, [], 0⟩ : DLState).reqLog) :=
  ⟨rfl, cancel_at_attempt_top_returns_immediately envC8 3 500 2 0 ⟨500, [], 0⟩ rfl⟩

/-! ## Claim C9 -/

/-- Claim C9: a sync run started with filtering disabled asks the
operator whether to enable an effectively match-all pattern; when the
operator declines, the run returns success with nothing downloaded, no
failures, and zero bytes moved. -/
theorem sync_filtering_declined (env : SyncEnv)
    (h1 : env.filterEnabled = false) (h2 : env.enableAllAnswer = false) :
    sync env = ⟨true, [], [], [], 0⟩ := by
  simp [sync, h1, h2]

/-- Oracle for the C9 witness: filtering disabled, the operator
declines; the lister and downloader oracles would produce work if they
were ever reached. -/
def envC9 : SyncEnv :=
  ⟨false, "x", false, false, srvC7, fsC7, "", true, fun _ => false,
   fun _ => (true, 5)⟩

/-- Witness for C9 at a concrete input. -/
theorem sync_filtering_declined_witness :
    envC9.filterEnabled = false ∧ envC9.enableAllAnswer = false ∧
    sync envC9 = ⟨true, [], [], [], 0⟩ :=
  ⟨rfl, rfl, sync_filtering_declined envC9 rfl rfl⟩

/-! ## Claim C4 -/

/-- Remote listing for the C4 counterexample: one file of 100 bytes. -/
def srvC4 : List FileInfoL := [⟨"x.laz", "u/x.laz", 100, "d"⟩]

/-- Local state for the C4 counterexample: the current-files directory
holds `x.laz` with only 40 bytes; the download directory is empty. -/
def fsC4 : LocalFS := ⟨[("x.laz", 40)], []⟩

/-- Claim C4 is false as stated: it is not the case that every locally
present file whose on-disk size is strictly smaller than its remote
size is a candidate regardless of which local location holds it.
`x.laz` of 40 < 100 bytes sits in the current-files directory (and is
absent from the download directory), yet `_determine_files_to_download`
selects nothing, because `_identify_partial_downloads` consults only
the download directory while `_get_local_files` reports the name as
locally present. -/
theorem smaller_copy_in_local_dir_not_candidate :
    ¬ (∀ (server : List FileInfoL) (fs : LocalFS) (ext : String)
        (f : FileInfoL), f ∈ server →
        (∃ sz, lookupSize fs.localDirFiles f.name = some sz ∧ sz < f.size) →
        f ∈ determineFilesToDownload server (localNames fs ext)
            (identifyIncompleteDownloads server fs)) := by
  intro h
  have hmem : (⟨"x.laz", "u/x.laz", 100, "d"⟩ : FileInfoL) ∈ srvC4 := by decide
  have hres := h srvC4 fsC4 "" ⟨"x.laz", "u/x.laz", 100, "d"⟩ hmem
    ⟨40, by decide, by decide⟩
  revert hres
  decide

/-- Claim C4, amended to what the code does: a remote file is a
candidate iff its name is absent from the local names or it has a
partial-download record; and a partial-download record exists for a
name iff some remote file of that name has a copy in the *download*
directory of strictly smaller size.  A smaller copy that exists only
in the current-files directory does not make its file a candidate. -/
theorem candidate_characterization
    (server : List FileInfoL) (locals : List String)
    (inc : List (String × PartInfo)) (fs : LocalFS)
    (f : FileInfoL) (name : String) :
    (f ∈ determineFilesToDownload server locals inc ↔
      f ∈ server ∧ (f.name ∉ locals ∨ (lookupPart inc f.name).isSome = true)) ∧
    ((lookupPart (identifyIncompleteDownloads server fs) name).isSome = true ↔
      ∃ g ∈ server, g.name = name ∧
        ∃ sz, lookupSize fs.downloadDirFiles name = some sz ∧ sz < g.size) := by
  constructor
  · simp [determineFilesToDownload, List.mem_filter, List.elem_iff]
  · induction server with
    | nil => simp [identifyIncompleteDownloads, lookupPart]
    | cons g rest ih =>
      rw [identifyIncompleteDownloads]
      by_cases hbe : g.name = name
      · subst hbe
        cases hg : lookupSize fs.downloadDirFiles g.name with
        | none => simp [hg, ih]
        | some sz =>
          by_cases hlt : sz < g.size
          · simp [hg, hlt, lookupPart, ih]
          · simp [hg, hlt, ih]
      · cases hg : lookupSize fs.downloadDirFiles g.name with
        | none => simp [hg, ih, hbe]
        | some sz =>
          by_cases hlt : sz < g.size
          · simp [hg, hlt, lookupPart, ih, hbe]
          · simp [hg, hlt, ih, hbe]

/-! ## Claim C6 -/

/-- Candidate list for the C6 example: one name matching
`G2-W08-2-.*` case-insensitively, and one name that does not. -/
def filesC6 : List FileInfoL :=
  [⟨"g2-w08-2-001.laz", "u1", 10, "d1"⟩, ⟨"g3-w08-2-001.laz", "u2", 20, "d2"⟩]

/-- Claim C6: with a valid pattern, a candidate is kept iff the
compiled pattern *searches* (substring match) its name under the
case-sensitivity flag; rejected candidates land in `filtered_files` in
input order; and on the example pattern `G2-W08-2-.*`
(case-insensitive) `g2-w08-2-001.laz` is kept while
`g3-w08-2-001.laz` is rejected. -/
theorem filter_keeps_iff_search
    (pattern : String) (r : List (AtomCls × Bool)) (cs : Bool)
    (files : List FileInfoL) (h : compilePattern pattern = some r) :
    (∀ f, f ∈ (applyRegexFilter true pattern cs files).kept ↔
        f ∈ files ∧ regexSearch cs r f.name = true) ∧
    (applyRegexFilter true pattern cs files).filteredFiles =
      (files.filter fun f => !(regexSearch cs r f.name)).map (fun f => f.name) ∧
    applyRegexFilter true "G2-W08-2-.*" false filesC6 =
      ⟨[⟨"g2-w08-2-001.laz", "u1", 10, "d1"⟩], ["g3-w08-2-001.laz"], false⟩ := by
  refine ⟨?_, ?_, by decide⟩
  · intro f
    simp [applyRegexFilter, h, List.partition_eq_filter_filter, List.mem_filter]
  · have hcomp : (not ∘ fun f : FileInfoL => regexSearch cs r f.name) =
        (fun f => !(regexSearch cs r f.name)) := rfl
    simp [applyRegexFilter, h, List.partition_eq_filter_filter, hcomp]

/-- Compiled form of the example pattern `G2-W08-2-.*`. -/
def regexG2 : List (AtomCls × Bool) :=
  [(AtomCls.lit 'G', false), (AtomCls.lit '2', false), (AtomCls.lit '-', false),
   (AtomCls.lit 'W', false), (AtomCls.lit '0', false), (AtomCls.lit '8', false),
   (AtomCls.lit '-', false), (AtomCls.lit '2', false), (AtomCls.lit '-', false),
   (AtomCls.dot, true)]

/-- Witness for C6 at the concrete pattern `G2-W08-2-.*`,
case-insensitive, on the two example names. -/
theorem filter_keeps_iff_search_witness :
    compilePattern "G2-W08-2-.*" = some regexG2 ∧
    ((∀ f, f ∈ (applyRegexFilter true "G2-W08-2-.*" false filesC6).kept ↔
        f ∈ filesC6 ∧ regexSearch false regexG2 f.name = true) ∧
      (applyRegexFilter true "G2-W08-2-.*" false filesC6).filteredFiles =
        (filesC6.filter fun f => !(regexSearch false regexG2 f.name)).map
          (fun f => f.name) ∧
      applyRegexFilter true "G2-W08-2-.*" false filesC6 =
        ⟨[⟨"g2-w08-2-001.laz", "u1", 10, "d1"⟩], ["g3-w08-2-001.laz"], false⟩) :=
  ⟨by decide,
   filter_keeps_iff_search "G2-W08-2-.*" regexG2 false filesC6 (by decide)⟩

/-! ## Claim C2 -/

/-- Network oracle for C2: the first request receives a response with
an arbitrary non-206 status (plus arbitrary headers/body, which the
range-not-honoured branch never reads); every later request receives a
clean full-body 200 response of `Content-Length S` streaming `chS`.
The termination flag is never set. -/
def envRangeFallback (st0 : Nat) (cr0 : Option Nat) (cl0 : Nat)
    (ch0 : List Nat) (me0 : Bool) (S : Nat) (chS : List Nat) : NetEnv :=
  ⟨fun n => if n == 0 then AttemptNet.resp st0 cr0 cl0 ch0 me0
            else AttemptNet.resp 200 none S chS false,
   fun _ => false⟩

/-- Claim C2: a fetch with `start_position = k > 0` sends
`Range: bytes=k-`; when the response status is not 206 the fetch
restarts from byte 0 exactly once — the request log is
`[some k, none]`: two requests, the second without a range header and
hence immune to a second refusal — the restart truncates the file
(mode "wb": the final length is independent of the initial length
`f0`), and a successful restart leaves the file at the full remote
size `S`, not `k` plus the content length. -/
theorem range_refused_restarts_once_from_zero
    (k S st0 cl0 m1 f0 p0 : Nat) (cr0 : Option Nat) (ch0 chS : List Nat)
    (me0 : Bool) (hk : 0 < k) (hst : st0 ≠ 206) (hS : chS.sum = S) :
    downloadWithRetries (envRangeFallback st0 cr0 cl0 ch0 me0 S chS) (m1 + 1) k
        ⟨f0, [], p0⟩ =
      ⟨true, S, ⟨S, [some k, none], p0 + 2 + chS.length⟩⟩ := by
  subst hS
  have hst2 : (st0 != 206) = true := by simp [hst]
  simp [downloadWithRetries, dlLoop, dlLoopFrom0, runAttempt, envRangeFallback,
    pollNext, hk, hst2, streamChunks_done_cancelFalse]

/-- Witness for C2 at a concrete input: resume from byte 400, first
response 200 with a 77-byte body that is never consumed, restart
streams the full 1000 bytes. -/
theorem range_refused_restarts_once_witness :
    0 < 400 ∧ (200 : Nat) ≠ 206 ∧ List.sum [600, 400] = 1000 ∧
    downloadWithRetries (envRangeFallback 200 none 77 [5, 5] false 1000 [600, 400])
        (2 + 1) 400 ⟨400, [], 0⟩ =
      ⟨true, 1000, ⟨1000, [some 400, none], 0 + 2 + List.length [600, 400]⟩⟩ :=
  ⟨by decide, by decide, by decide,
   range_refused_restarts_once_from_zero 400 1000 200 77 2 400 0 none [5, 5]
     [600, 400] false (by decide) (by decide) (by decide)⟩

/-! ## Claim C5 -/

/-- Network oracle for C5: every request receives the same response,
which streams `chunks` and ends cleanly (no exception); the
termination flag is never set. -/
def envSingleResp (status clen : Nat) (crT : Option Nat)
    (chunks : List Nat) : NetEnv :=
  ⟨fun _ => AttemptNet.resp status crT clen chunks false, fun _ => false⟩

/-- Claim C5: a fetch whose stream completes without a network
exception, but whose final on-disk length falls short of a positive
expected total, returns `(False, ...)` immediately — the truncation
check of lines 798-803.  The expected total is the one the code
derives: the `Content-Range` total for a 206 response, else
`content-length + start_position`; the final length is the initial
length (kept by append mode when resuming, zeroed by truncate mode
otherwise) plus the streamed bytes. -/
theorem truncated_stream_fails
    (status clen k f0 p0 m2 : Nat) (crT : Option Nat) (chunks : List Nat)
    (hreach : 0 < k → status = 206) (hok : status < 400)
    (hpos : 0 < (if status == 206 then crT.getD 0 else clen + k))
    (hshort : (if 0 < k then f0 else 0) + chunks.sum <
        (if status == 206 then crT.getD 0 else clen + k)) :
    downloadWithRetries (envSingleResp status clen crT chunks) (m2 + 1) k
        ⟨f0, [], p0⟩ =
      ⟨false, chunks.sum,
        ⟨(if 0 < k then f0 else 0) + chunks.sum,
         [if 0 < k then some k else none], p0 + 1 + chunks.length⟩⟩ := by
  have hok2 : ¬ 400 ≤ status := by omega
  by_cases hk : 0 < k
  · have h206 : status = 206 := hreach hk
    subst h206
    simp only [hk, if_true, beq_self_eq_true] at hpos hshort ⊢
    simp [downloadWithRetries, dlLoop, runAttempt, envSingleResp, pollNext,
      hk, hok2, streamChunks_done_cancelFalse, hpos, hshort]
  · have hk0 : k = 0 := by omega
    subst hk0
    by_cases h206 : status = 206
    · subst h206
      have hpos2 : 0 < crT.getD 0 := by simpa using hpos
      have hshort2 : chunks.sum < crT.getD 0 := by simpa using hshort
      simp [downloadWithRetries, dlLoop, runAttempt, envSingleResp, pollNext,
        hok2, streamChunks_done_cancelFalse, hpos2, hshort2]
    · have hbe : (status == 206) = false := by simp [h206]
      have hpos2 : 0 < clen := by simpa [hbe] using hpos
      have hshort2 : chunks.sum < clen := by simpa [hbe] using hshort
      simp [downloadWithRetries, dlLoop, runAttempt, envSingleResp, pollNext,
        hok2, h206, hbe, streamChunks_done_cancelFalse, hpos2, hshort2]

/-- Witness for C5 at a concrete input: a fresh fetch with
content-length 1000 whose stream delivers only 300 bytes and closes
without error is reported as failed. -/
theorem truncated_stream_fails_witness :
    (0 < 0 → (200 : Nat) = 206) ∧ (200 : Nat) < 400 ∧
    0 < (if (200 : Nat) == 206 then (none : Option Nat).getD 0 else 1000 + 0) ∧
    ((if 0 < 0 then 0 else 0) + List.sum [300] <
      (if (200 : Nat) == 206 then (none : Option Nat).getD 0 else 1000 + 0)) ∧
    downloadWithRetries (envSingleResp 200 1000 none [300]) (2 + 1) 0
        ⟨0, [], 0⟩ =
      ⟨false, List.sum [300],
        ⟨(if 0 < 0 then 0 else 0) + List.sum [300],
         [if 0 < 0 then some 0 else none], 0 + 1 + List.length [300]⟩⟩ :=
  ⟨by decide, by decide, by decide, by decide,
   truncated_stream_fails 200 1000 0 0 0 2 none [300] (by decide) (by decide)
     (by decide) (by decide)⟩

/-! ## Claim C10 -/

/-- Network oracle for the C10 counterexample: the first request gets
a 200 response with content-length 1000 that delivers one 100-byte
chunk and then raises; the second request raises before any response.
The termination flag is never set. -/
def envC10 : NetEnv :=
  ⟨fun n => if n == 0 then AttemptNet.resp 200 none 1000 [100] true
            else AttemptNet.raiseExc,
   fun _ => false⟩

/-- Claim C10 is false as stated: a download call that performs two
attempts does not always return a count covering only the final
attempt.  Here the first attempt streams 100 bytes and then fails; the
second (final) attempt fails at request time, *before* the streaming
phase where the counter is reset, so the call returns 100 — the bytes
written during the earlier attempt — not 0.  The request log confirms
two attempts were made. -/
theorem returned_count_includes_prior_attempt_bytes :
    downloadWithRetries envC10 2 0 ⟨0, [], 0⟩ =
      ⟨false, 100, ⟨100, [none, none], 5⟩⟩ := by decide

/-- Network oracle for the amended C10 theorem: the first request's
stream delivers `ch0` and then raises; every later request streams
`chS` cleanly with content-length `S`. -/
def envRetryThenStream (cl0 : Nat) (ch0 : List Nat) (S : Nat)
    (chS : List Nat) : NetEnv :=
  ⟨fun n => if n == 0 then AttemptNet.resp 200 none cl0 ch0 true
            else AttemptNet.resp 200 none S chS false,
   fun _ => false⟩

/-- Claim C10, amended: the `bytes_downloaded` counter is reset to
zero at the start of each attempt's *streaming phase* (line 767), so
when the final attempt reaches streaming, the returned count covers
only that attempt — the `ch0` bytes written by the failed first
attempt are excluded from the returned count, whatever they were.
(An attempt failing before its streaming phase instead leaves the
counter holding the previous attempt's bytes; see the
counterexample.)  The fallback restart likewise returns only the
inner call's count, shown by the C2 theorem. -/
theorem count_covers_final_streaming_attempt
    (cl0 S m2 p0 : Nat) (ch0 chS : List Nat) (hS : chS.sum = S) :
    downloadWithRetries (envRetryThenStream cl0 ch0 S chS) (m2 + 2) 0
        ⟨0, [], p0⟩ =
      ⟨true, S, ⟨S, [none, none], p0 + 3 + ch0.length + chS.length⟩⟩ := by
  subst hS
  simp [downloadWithRetries, dlLoop, runAttempt, envRetryThenStream, pollNext,
    streamChunks_done_cancelFalse]
  omega

/-- Witness for the amended C10 theorem at a concrete input: the first
attempt writes 100 bytes and fails; the retry streams 1000 bytes; the
returned count is 1000, not 1100. -/
theorem count_covers_final_streaming_attempt_witness :
    List.sum [600, 400] = 1000 ∧
    downloadWithRetries (envRetryThenStream 7 [100] 1000 [600, 400]) (0 + 2) 0
        ⟨0, [], 0⟩ =
      ⟨true, 1000,
        ⟨1000, [none, none], 0 + 3 + List.length [100] + List.length [600, 400]⟩⟩ :=
  ⟨by decide,
   count_covers_final_streaming_attempt 7 1000 0 0 [100] [600, 400] (by decide)⟩
